import Mathlib

/-!
Verification of the CMMC scoping tool core: the question-dependency engine
(`scoping_tool/utils/question_engine.py`) and the rule-based scoring engine
(`scoping_tool/utils/scoring.py`).

The Python runtime fragment the two modules use is modelled by `PyVal`
(values stored in the Response Store), with Python builtins (`str()`,
substring/membership `in`, `lower()`, `strip()`, `split`, `int()`)
reimplemented over character lists.  Operations that can raise a Python
`TypeError` are modelled as `Option`-valued, `Option.none` standing for the
raised exception.
-/

namespace CMMC

/-- A Python value as it can appear in the Response Store.  The collectors in
`QuestionEngine._collect_answer` produce booleans (yes/no), choice strings,
lists of choice strings (multi-choice), free-text strings, `None` (empty free
text) and integers, so list values hold strings. -/
inductive PyVal where
  | none
  | bool (b : Bool)
  | int (n : Int)
  | str (s : String)
  | list (xs : List String)
deriving DecidableEq

/-- Python truthiness (`bool(x)`). -/
def pyTruthy : PyVal → Bool
  | .none => false
  | .bool b => b
  | .int n => decide (n ≠ 0)
  | .str s => decide (s ≠ "")
  | .list xs => decide (xs ≠ [])

/-- Python `a or b` on stored values. -/
def pyOr (a b : PyVal) : PyVal := if pyTruthy a then a else b

/-- The single-quote character used by Python `repr` of strings. -/
def squote : String := String.mk [Char.ofNat 39]

/-- Python `repr` of a stored value (string quoting simplified to the common
single-quote case; escape sequences are not modelled). -/
def pyRepr : PyVal → String
  | .none => "None"
  | .bool true => "True"
  | .bool false => "False"
  | .int n => toString n
  | .str s => squote ++ s ++ squote
  | .list xs => "[" ++ String.intercalate ", " (xs.map (fun s => squote ++ s ++ squote)) ++ "]"

/-- Python `str()` of a stored value. -/
def pyStr : PyVal → String
  | .str s => s
  | v => pyRepr v

/-- Python substring containment `needle in hay` for strings. -/
def substrB (needle hay : String) : Bool :=
  (List.range (hay.data.length + 1)).any (fun i => List.isPrefixOf needle.data (hay.data.drop i))

/-- Python `s.lower()` (ASCII case folding suffices for the catalog text). -/
def pyLower (s : String) : String := String.mk (s.data.map Char.toLower)

/-- Python `needle in hay` where `needle` is a string: substring test on a
string, element test on a list, and a `TypeError` (modelled as `Option.none`)
on non-container values such as `None`, booleans and integers. -/
def pyIn (needle : String) : PyVal → Option Bool
  | .str s => some (substrB needle s)
  | .list xs => some (xs.contains needle)
  | _ => Option.none

/-- Python `s.strip()` on a character list. -/
def trimChars (cs : List Char) : List Char :=
  ((cs.dropWhile Char.isWhitespace).reverse.dropWhile Char.isWhitespace).reverse

/-- Python `s.split(sep)` for a one-character separator, on character lists. -/
def splitChar (sep : Char) : List Char → List (List Char)
  | [] => [[]]
  | c :: rest =>
    let r := splitChar sep rest
    if c == sep then [] :: r
    else
      match r with
      | [] => [[c]]
      | h :: t => (c :: h) :: t

/-- Python `int(tok.strip())`: optional sign followed by decimal digits
(underscore digit separators are not modelled); `Option.none` is the
`ValueError` case. -/
def pyInt? (s : String) : Option Int :=
  let cs := trimChars s.data
  let (sign, ds) : Int × List Char :=
    match cs with
    | '-' :: rest => (-1, rest)
    | '+' :: rest => (1, rest)
    | _ => (1, cs)
  if ds ≠ [] ∧ ds.all Char.isDigit then
    some (sign * (ds.foldl (fun acc c => acc * 10 + ((c.toNat : Int) - 48)) (0 : Int)))
  else
    Option.none

/-! ## Question engine (`scoping_tool/utils/question_engine.py`) -/

/-- `QuestionType` from `question_engine.py`. -/
inductive QuestionType where
  | yes_no
  | choice
  | multi_choice
  | text
  | number
deriving DecidableEq

/-- The `Question` dataclass.  Field order and defaults follow the source. -/
structure Question where
  id : String
  text : String
  qtype : QuestionType
  choices : List String := []
  help_text : Option String := Option.none
  nist_controls : List String := []
  depends_on : Option (String × PyVal) := Option.none
  is_critical : Bool := false
  gap_flag : Bool := false
deriving DecidableEq

/-- The Response Store built by one `QuestionEngine.run` (`self.answers`),
with Python dict insertion order. -/
abbrev AnswerStore := List (String × PyVal)

/-- `self.answers.get(dep_id)` without the `None` default: `Option.none` when
the key is absent. -/
def lookupAns (answers : AnswerStore) (k : String) : Option PyVal :=
  (answers.find? (fun p => p.1 == k)).map (fun p => p.2)

/-- `self.answers.get(dep_id)`: Python returns `None` when the key is absent
(indistinguishable from a stored `None`). -/
def dictGetNone (answers : AnswerStore) (k : String) : PyVal :=
  (lookupAns answers k).getD PyVal.none

/-- `QuestionEngine._to_bool`: booleans pass through, strings normalize by
lowercased membership in `("y", "yes", "true", "1")`, everything else is not
normalizable (`None` result). -/
def to_bool : PyVal → Option Bool
  | .bool b => some b
  | .str s => some ((["y", "yes", "true", "1"] : List String).contains (pyLower s))
  | _ => Option.none

/-- The dependency check inlined in `QuestionEngine.run`: for a boolean
`expected` compare `_to_bool(answers.get(dep_id))` against it (a `None`
normalization compares unequal); otherwise compare the raw
`answers.get(dep_id)` against `expected`. `true` means the question is
presented. -/
def depOk (answers : AnswerStore) (d : String) (e : PyVal) : Bool :=
  match e with
  | .bool b =>
      match to_bool (dictGetNone answers d) with
      | some a => a == b
      | Option.none => false
  | _ => dictGetNone answers d == e

/-- The equivalence under which a stored dependency answer matches the
expected value: boolean expected values via `_to_bool` normalization,
everything else by Python equality. -/
def expMatches (e v : PyVal) : Bool :=
  match e with
  | .bool b => to_bool v == some b
  | _ => v == e

/-- The mutable state of `QuestionEngine.run`: the answer dict and the
displayed-question counter `shown`. -/
structure EngineState where
  answers : AnswerStore
  shown : Nat
deriving DecidableEq

/-- One iteration of the `for q in self.questions` loop in
`QuestionEngine.run`.  The Answer Collector (`_collect_answer`) is abstracted
as `oracle`. -/
def engineStep (oracle : Question → PyVal) (s : EngineState) (q : Question) : EngineState :=
  match q.depends_on with
  | some (d, e) =>
      if depOk s.answers d e then
        ⟨s.answers ++ [(q.id, oracle q)], s.shown + 1⟩
      else s
  | Option.none => ⟨s.answers ++ [(q.id, oracle q)], s.shown + 1⟩

/-- The loop of `QuestionEngine.run` from an intermediate state. -/
def engineRunFrom (oracle : Question → PyVal) (s : EngineState) (qs : List Question) : EngineState :=
  qs.foldl (engineStep oracle) s

/-- `QuestionEngine.run` over a catalog (`shown = 0`, empty answers). -/
def engineRun (oracle : Question → PyVal) (qs : List Question) : EngineState :=
  engineRunFrom oracle ⟨[], 0⟩ qs

/-- One iteration of the input loop of `QuestionEngine._ask_multi_choice`:
`some` is the value returned to the engine, `Option.none` means the loop
re-prompts. -/
def ask_multi_choice_attempt (choices : List String) (input : String) : Option (List String) :=
  let ans := String.mk (trimChars input.data)
  if pyLower ans == "all" then some choices
  else
    match (splitChar ',' ans.data).mapM (fun tok => pyInt? (String.mk tok)) with
    | Option.none => Option.none
    | some nums =>
      let indices := nums.map (fun n => n - 1)
      let selected := indices.filterMap (fun i =>
        if 0 ≤ i ∧ i < (choices.length : Int) then choices.get? i.toNat else Option.none)
      if selected ≠ [] then some selected else Option.none

/-- `QuestionEngine._ask_multi_choice` over a stream of user inputs: the
first accepted attempt is returned. -/
def ask_multi_choice (choices : List String) : List String → Option (List String)
  | [] => Option.none
  | i :: is =>
      match ask_multi_choice_attempt choices i with
      | some l => some l
      | Option.none => ask_multi_choice choices is

/-! ## Scoring engine (`scoping_tool/utils/scoring.py`)

`ScopeScorer.__init__` flattens the per-module response dicts into a single
mapping `self.flat`; the scorer is modelled directly over that flat Response
Store.  `calculate` and the helpers that can raise a `TypeError` on
type-mismatched answers are `Option`-valued (`Option.none` = raised). -/

/-- The flat Response Store read by `ScopeScorer` (`self.flat`). -/
abbrev Store := String → Option PyVal

def emptyStore : Store := fun _ => Option.none

/-- Adding one answer under a (possibly fresh) question id. -/
def updateStore (flat : Store) (k : String) (v : PyVal) : Store :=
  fun k' => if k' = k then some v else flat k'

/-- `self.flat.get(k)` (default `None`). -/
def pyGet (flat : Store) (k : String) : PyVal := (flat k).getD PyVal.none

/-- `self.flat.get(k, dflt)`. -/
def pyGetD (flat : Store) (k : String) (dflt : PyVal) : PyVal := (flat k).getD dflt

/-- `ScopeScorer._cui_in_scope`.  `Option.none` models the `TypeError` that
`"I am not sure" not in (cui_cats or [])` raises when `df_03` holds a truthy
non-container value; the preceding `bool(cui_cats) and ...` short-circuit is
preserved. -/
def cui_in_scope (flat : Store) : Option Bool :=
  let handles_gov := decide (pyGet flat "df_01" = PyVal.bool true)
  let has_dfars := decide (pyGet flat "df_02" = PyVal.bool true)
  let cui_cats := pyGetD flat "df_03" (PyVal.list [])
  let has_cui_cats? : Option Bool :=
    if pyTruthy cui_cats then
      (pyIn "I am not sure" (pyOr cui_cats (PyVal.list []))).map (fun m => !m)
    else some false
  has_cui_cats?.map (fun has_cui_cats => handles_gov && (has_dfars || has_cui_cats))

/-- `ScopeScorer._fci_in_scope`. -/
def fci_in_scope (flat : Store) : Bool :=
  decide (pyGet flat "df_01" = PyVal.bool true) || decide (pyGet flat "df_09" = PyVal.bool true)

/-- `ScopeScorer._cmmc_level`. -/
def cmmc_level (cui fci : Bool) : String :=
  if cui then "Level 2"
  else if fci then "Level 1"
  else "Not Required (verify contract requirements)"

/-- A compliance gap record appended by the local `gap(...)` helper of
`ScopeScorer._identify_gaps`. -/
structure Gap where
  nist_control : String
  title : String
  detail : String
  priority : String
deriving DecidableEq

/-- MFA rule on `ac_02` (default `""`). -/
def mfa_rule (mfa : PyVal) : List Gap :=
  if substrB "No — password" (pyStr mfa) || substrB "Partial" (pyStr mfa) then
    [⟨"IA.3.083", "Multi-Factor Authentication Not Fully Implemented",
      "MFA is required for all access to CUI systems under NIST 800-171 Rev 3 IA.3.083. " ++
      "Password-only authentication is not compliant.", "HIGH"⟩]
  else []

/-- Remote-access rule on `ac_05` (default `""`). -/
def remote_rule (remote : PyVal) : List Gap :=
  if substrB "no MFA" (pyStr remote) || substrB "direct RDP" (pyStr remote) then
    [⟨"AC.1.001 / IA.3.083", "Remote Access Lacks MFA or VPN Protection",
      "Remote access to CUI systems must use MFA and encrypted channels (VPN). " ++
      "Direct RDP/SSH without VPN is a critical exposure.", "HIGH"⟩]
  else []

/-- Encryption-at-rest rule on `df_06` (default `""`). -/
def enc_rest_rule (enc_rest : PyVal) : List Gap :=
  if substrB "No" (pyStr enc_rest) || substrB "not sure" (pyLower (pyStr enc_rest)) then
    [⟨"SC.3.177", "CUI Not Encrypted at Rest",
      "NIST SC.3.177 requires CUI to be encrypted at rest using FIPS 140-2 validated " ++
      "cryptographic modules. Unencrypted CUI storage is a critical gap.", "HIGH"⟩]
  else []

/-- Encryption-in-transit rule on `df_07` (default `""`). -/
def enc_transit_rule (enc_transit : PyVal) : List Gap :=
  if substrB "plaintext" (pyLower (pyStr enc_transit)) ||
      substrB "not sure" (pyLower (pyStr enc_transit)) then
    [⟨"SC.3.177", "CUI Not Encrypted in Transit",
      "CUI transmitted over networks must be encrypted (TLS 1.2+ or equivalent). " ++
      "Plaintext transmission is a critical compliance failure.", "HIGH"⟩]
  else []

/-- Network-separation rule on `bd_02` (default `""`). -/
def boundary_rule (boundary : PyVal) : List Gap :=
  if substrB "No — all systems share" (pyStr boundary) then
    [⟨"SC.3.180", "No Network Segmentation for CUI Systems",
      "CUI systems should be on an isolated network segment or enclave. " ++
      "Flat networks where all systems share the same segment expand CMMC scope significantly.",
      "HIGH"⟩]
  else []

/-- Shared-services rule on `bd_06` (default `None`) and `bd_06a`
(default `[]`).  With list values restricted to lists of strings the
`', '.join(shared)` in the detail cannot raise. -/
def shared_rule (b06 shared : PyVal) : List Gap :=
  if decide (b06 = PyVal.bool true) && pyTruthy shared &&
      !substrB "None" (pyStr shared) then
    [⟨"SC.3.180 / AC.1.001", "Shared Services Span CUI and Non-CUI Environments",
      "Shared services (" ++
      (match shared with
       | .list xs => String.intercalate ", " xs
       | v => pyStr v) ++
      ") that span both CUI and non-CUI environments bring additional systems into CMMC scope.",
      "HIGH"⟩]
  else []

/-- SSP rule on `bd_07` (default `None`). -/
def ssp_rule (b07 : PyVal) : List Gap :=
  if decide (b07 = PyVal.bool false) then
    [⟨"CM.2.061", "No System Security Plan (SSP)",
      "A written SSP documenting your system boundary, security controls, and NIST 800-171 " ++
      "implementation is required for CMMC Level 2 assessment.", "HIGH"⟩]
  else []

/-- SPRS rule on `bd_08` (default `None`). -/
def sprs_rule (b08 : PyVal) : List Gap :=
  if decide (b08 = PyVal.bool false) then
    [⟨"CM.2.061", "SPRS Score Not Submitted",
      "DoD contractors must submit a NIST SP 800-171 self-assessment score to SPRS. " ++
      "Failure to do so may violate contract requirements.", "MEDIUM"⟩]
  else []

/-- Logging rule on `ac_07` (default `""`). -/
def logging_rule (logv : PyVal) : List Gap :=
  if substrB "No logging" (pyStr logv) then
    [⟨"AU.2.041", "No Audit Logging on CUI Systems",
      "NIST AU.2.041 requires audit records for user activities on CUI systems. " ++
      "No logging means you cannot detect or investigate security incidents.", "HIGH"⟩]
  else []

/-- Privileged-accounts rule on `ac_03` (default `None`). -/
def priv_rule (a03 : PyVal) : List Gap :=
  if decide (a03 = PyVal.bool false) then
    [⟨"AC.1.002", "No Separation of Privileged and Standard Accounts",
      "Admin/privileged accounts should be separate from standard user accounts " ++
      "to limit the blast radius of a compromised credential.", "MEDIUM"⟩]
  else []

/-- Removable-media rule on `ac_08` (default `""`). -/
def usb_rule (usb : PyVal) : List Gap :=
  if substrB "unrestricted" (pyLower (pyStr usb)) || substrB "No —" (pyStr usb) then
    [⟨"AC.2.006 / MP.2.119", "Removable Media Not Controlled",
      "USB and removable media use on CUI systems must be restricted and controlled. " ++
      "Unrestricted USB access is a common data exfiltration vector.", "MEDIUM"⟩]
  else []

/-- BYOD rule on `si_04` (default `None`). -/
def byod_rule (s04 : PyVal) : List Gap :=
  if decide (s04 = PyVal.bool true) then
    [⟨"AC.1.001 / MP.2.119", "Personal Devices (BYOD) Used for Work Activities",
      "Personal devices accessing company email or systems may bring CUI into an uncontrolled " ++
      "environment. BYOD policies and MDM controls are required.", "MEDIUM"⟩]
  else []

/-- Awareness-training rule on `ac_09` (default `""`). -/
def training_rule (training : PyVal) : List Gap :=
  if substrB "No formal" (pyStr training) then
    [⟨"AT.2.056", "No Formal Cybersecurity Awareness Training Program",
      "NIST AT.2.056 requires all users with access to CUI systems to receive " ++
      "periodic security awareness training.", "MEDIUM"⟩]
  else []

/-- Subcontractor rule on `df_08a` (default `""`). -/
def sub_rule (sub : PyVal) : List Gap :=
  if pyTruthy sub &&
      (substrB "no known" (pyLower (pyStr sub)) || substrB "not sure" (pyLower (pyStr sub))) then
    [⟨"AC.2.006", "Subcontractors Handling CUI Lack CMMC Certification",
      "Subcontractors who receive CUI may be required to obtain their own CMMC certification " ++
      "under the flow-down requirements of DFARS 252.204-7021.", "HIGH"⟩]
  else []

/-- `ScopeScorer._identify_gaps`: the fourteen rules in source order,
appending at most one gap record each. -/
def identify_gaps (flat : Store) : List Gap :=
  mfa_rule (pyGetD flat "ac_02" (PyVal.str "")) ++
  remote_rule (pyGetD flat "ac_05" (PyVal.str "")) ++
  enc_rest_rule (pyGetD flat "df_06" (PyVal.str "")) ++
  enc_transit_rule (pyGetD flat "df_07" (PyVal.str "")) ++
  boundary_rule (pyGetD flat "bd_02" (PyVal.str "")) ++
  shared_rule (pyGet flat "bd_06") (pyGetD flat "bd_06a" (PyVal.list [])) ++
  ssp_rule (pyGet flat "bd_07") ++
  sprs_rule (pyGet flat "bd_08") ++
  logging_rule (pyGetD flat "ac_07" (PyVal.str "")) ++
  priv_rule (pyGet flat "ac_03") ++
  usb_rule (pyGetD flat "ac_08" (PyVal.str "")) ++
  byod_rule (pyGet flat "si_04") ++
  training_rule (pyGetD flat "ac_09" (PyVal.str "")) ++
  sub_rule (pyGetD flat "df_08a" (PyVal.str ""))

/-- `ScopeScorer._enclave_recommended` (recomputes `_cui_in_scope`). -/
def enclave_recommended (flat : Store) : Option Bool :=
  (cui_in_scope flat).map (fun cui =>
    let no_enclave := decide (pyGet flat "bd_03" = PyVal.bool false) ||
                      decide (pyGet flat "bd_03" = PyVal.none)
    let not_all := decide (pyGet flat "bd_01" = PyVal.bool false)
    let willing := !decide (pyGet flat "bd_04" = PyVal.bool false)
    cui && no_enclave && (not_all || willing))

/-- The `total_map` lookup `total_map.get(self.flat.get("si_01", "1–10"), 10)`.
A list key is unhashable and raises a `TypeError` (`Option.none`); any other
non-matching key falls back to the default 10. -/
def total_map_get : PyVal → Option Nat
  | .list _ => Option.none
  | .str s =>
      some (if s = "1–10" then 10
            else if s = "11–50" then 50
            else if s = "51–200" then 200
            else if s = "201–500" then 500
            else if s = "500+" then 999
            else 10)
  | _ => some 10

/-- `ScopeScorer._estimate_systems_in_scope`. -/
def estimate_systems_in_scope (flat : Store) : Option String :=
  (total_map_get (pyGetD flat "si_01" (PyVal.str "1–10"))).map (fun total =>
    if decide (pyGet flat "bd_01" = PyVal.bool true) then toString total
    else
      let boundary := pyStr (pyGetD flat "bd_02" (PyVal.str ""))
      if substrB "physically separate" boundary || substrB "logically separated" boundary then
        "~" ++ toString (max 1 (total / 5)) ++ " (estimated enclave systems only)"
      else if substrB "Partially" boundary then
        "~" ++ toString (max 1 (total / 2)) ++ " (estimated)"
      else toString total)

/-- `ScopeScorer._scope_reduction_possible`. -/
def scope_reduction_possible (flat : Store) : Bool :=
  decide (pyGet flat "bd_01" = PyVal.bool false) &&
  (decide (pyGet flat "bd_01a" = PyVal.bool true) ||
   decide (pyGet flat "bd_04" = PyVal.bool true))

/-- The `/`-separated, stripped identifier tokens of one gap record. -/
def control_tokens (g : Gap) : List String :=
  (splitChar '/' g.nist_control.data).map (fun cs => String.mk (trimChars cs))

/-- `ScopeScorer._nist_control_gaps`: split on `/`, strip, collect into a set,
return sorted (`sorted(controls)` on Python strings is lexicographic). -/
def nist_control_gaps (gaps : List Gap) : List String :=
  ((gaps.flatMap control_tokens).dedup).insertionSort (fun a b => a ≤ b)

/-- The dict returned by `ScopeScorer.calculate`. -/
structure ScoreResult where
  cui_in_scope : Bool
  fci_in_scope : Bool
  cmmc_level_required : String
  enclave_recommended : Bool
  systems_in_scope : String
  compliance_gaps : List Gap
  gap_count : Nat
  high_priority_gaps : List Gap
  nist_control_gaps : List String
  scope_reduction_possible : Bool
deriving DecidableEq

/-- `ScopeScorer.calculate`. -/
def calculate (flat : Store) : Option ScoreResult := do
  let cui ← cui_in_scope flat
  let fci := fci_in_scope flat
  let level := cmmc_level cui fci
  let gaps := identify_gaps flat
  let enc ← enclave_recommended flat
  let sys ← estimate_systems_in_scope flat
  pure ⟨cui, fci, level, enc, sys, gaps, gaps.length,
        gaps.filter (fun g => g.priority == "HIGH"),
        nist_control_gaps gaps,
        scope_reduction_possible flat⟩

/-- `ScopeScorer.calculate` as a state transformer over the Response Store:
the source method only reads `self.flat` (no assignment to `self.flat` or
`self.r` occurs anywhere in `ScopeScorer` outside `__init__`), so the store
comes back unchanged. -/
def calculateS (flat : Store) : Option (ScoreResult × Store) :=
  (calculate flat).map (fun res => (res, flat))

/-! ## Scenario stores from the specification -/

/-- Scenario B of the spec: `df_01 = true`, `df_02 = true`, all else absent. -/
def scenarioB : Store :=
  updateStore (updateStore emptyStore "df_01" (PyVal.bool true)) "df_02" (PyVal.bool true)

/-- Scenario C of the spec with the catalog's actual unsure sentinel choice
(the last entry of `CUI_CATEGORIES` in `questions/data_flow.py`). -/
def scenarioC : Store :=
  updateStore (updateStore (updateStore emptyStore "df_01" (PyVal.bool true))
    "df_02" (PyVal.bool false))
    "df_03" (PyVal.list ["I am not sure — need help identifying"])

/-- Scenario E of the spec: device bucket `51–200`, whole environment not in
scope, physically separate (the first `bd_02` choice in
`questions/boundary.py`). -/
def scenarioE : Store :=
  updateStore (updateStore (updateStore emptyStore "si_01" (PyVal.str "51–200"))
    "bd_01" (PyVal.bool false))
    "bd_02" (PyVal.str "Yes — physically separate (different hardware, no network connection)")

/-- `df_03` values on which `_cui_in_scope` does not raise: everything except
a truthy boolean or integer (for those, `"I am not sure" not in (cui_cats or
[])` raises a `TypeError`). -/
def df03_safe : PyVal → Prop
  | .bool b => b = false
  | .int n => n = 0
  | _ => True

/-- `si_01` values that are hashable as a `total_map` key (lists raise). -/
def si01_hashable : PyVal → Prop
  | .list _ => False
  | _ => True

/-- Concrete two-question catalog for the `c5_dependency_gating` witness. -/
def qW1 : Question :=
  ⟨"w1", "", QuestionType.yes_no, [], Option.none, [], Option.none, false, false⟩

def qW2 : Question :=
  ⟨"w2", "", QuestionType.yes_no, [], Option.none, [],
   some ("w1", PyVal.bool true), false, false⟩

def oc5 : Question → PyVal := fun _ => PyVal.bool false

/-- Store with one MFA gap for the `c7_gap_monotone` witness. -/
def storeW7 : Store :=
  updateStore emptyStore "ac_02" (PyVal.str "No — password-only authentication is used")

/-- Every `total_map` value (and the fallback) is at least 10. -/
theorem total_map_get_ge (v : PyVal) (t : Nat) (h : total_map_get v = some t) : 10 ≤ t := by
  rcases v with _ | b | n | s | xs
  · simp only [total_map_get, Option.some.injEq] at h; omega
  · simp only [total_map_get, Option.some.injEq] at h; omega
  · simp only [total_map_get, Option.some.injEq] at h; omega
  · simp only [total_map_get, Option.some.injEq] at h; subst h; split_ifs <;> omega
  · simp only [total_map_get] at h
    exact absurd h (by simp)

/-- Claim C1: with `df_01 = true`, `df_02 = false` and the categories answer
consisting solely of the catalog's unsure sentinel choice, the code computes
the primary (CUI) flag as `true` and classifies at Level 2 — not `false` /
baseline as the spec states.  The dead check is exhibited by the third
conjunct: the literal `"I am not sure"` tested by `_cui_in_scope` is not an
element of the recorded choice list. -/
theorem c1_unsure_sentinel_dead :
    cui_in_scope scenarioC = some true ∧
    (calculate scenarioC).map (fun r => r.cmmc_level_required) = some "Level 2" ∧
    pyIn "I am not sure" (PyVal.list ["I am not sure — need help identifying"]) = some false :=
  ⟨rfl, rfl, by decide⟩

/-- Claim C2 (counterexample): a stored free-text string `"yes"` under the
dependency id is boolean-normalized to `True`, compares equal to the expected
boolean, and the dependent question is presented and answered — refuting
"skipped whenever the dependency answer is a string". -/
theorem c2_cex_string_presented :
    lookupAns (engineRun (fun q => if q.id = "dep_src" then PyVal.str "yes" else PyVal.bool true)
        [⟨"dep_src", "", QuestionType.text, [], Option.none, [], Option.none, false, false⟩,
         ⟨"dep_tgt", "", QuestionType.yes_no, [], Option.none, [],
          some ("dep_src", PyVal.bool true), false, false⟩]).answers
      "dep_tgt" = some (PyVal.bool true) := by
  decide

/-- Claim C2 (amended): under a boolean expected value the stored answer is
compared through `_to_bool`: a stored string normalizes to the boolean
"lowercased form is one of y/yes/true/1" and compares under that value (so a
string is not always skipped), while a missing answer or a stored `None`,
integer or list is not normalizable and always compares unequal (fail
closed). -/
theorem c2_bool_dependency_normalization :
    (∀ (answers : AnswerStore) (d : String) (b : Bool) (s : String),
      lookupAns answers d = some (PyVal.str s) →
      depOk answers d (PyVal.bool b) =
        ((["y", "yes", "true", "1"] : List String).contains (pyLower s) == b)) ∧
    (∀ (answers : AnswerStore) (d : String) (b : Bool),
      lookupAns answers d = Option.none → depOk answers d (PyVal.bool b) = false) ∧
    (∀ (answers : AnswerStore) (d : String) (b : Bool),
      lookupAns answers d = some PyVal.none → depOk answers d (PyVal.bool b) = false) ∧
    (∀ (answers : AnswerStore) (d : String) (b : Bool) (n : Int),
      lookupAns answers d = some (PyVal.int n) → depOk answers d (PyVal.bool b) = false) ∧
    (∀ (answers : AnswerStore) (d : String) (b : Bool) (xs : List String),
      lookupAns answers d = some (PyVal.list xs) → depOk answers d (PyVal.bool b) = false) := by
  refine ⟨?_, ?_, ?_, ?_, ?_⟩
  · intro answers d b s h; simp [depOk, dictGetNone, h, to_bool]
  · intro answers d b h; simp [depOk, dictGetNone, h, to_bool]
  · intro answers d b h; simp [depOk, dictGetNone, h, to_bool]
  · intro answers d b n h; simp [depOk, dictGetNone, h, to_bool]
  · intro answers d b xs h; simp [depOk, dictGetNone, h, to_bool]

/-- Witness for `c2_bool_dependency_normalization` at a concrete store. -/
theorem c2_w :
    depOk [("k", PyVal.str "TRUE")] "k" (PyVal.bool true) =
      ((["y", "yes", "true", "1"] : List String).contains (pyLower "TRUE") == true) :=
  c2_bool_dependency_normalization.1 [("k", PyVal.str "TRUE")] "k" true "TRUE" (by rfl)

/-- Claim C3 (counterexample): a malformed `df_03` answer (the boolean `True`
where a choice list is expected) makes `_cui_in_scope` raise a `TypeError`
(`"I am not sure" not in True`), so `calculate` does not return a Derived
Result — refuting "a missing or malformed answer never raises". -/
theorem c3_cex_typeerror :
    calculate (updateStore emptyStore "df_03" (PyVal.bool true)) = Option.none := by
  rfl

/-- Claim C3 (amended): a missing answer never raises; the engine is total on
every store whose `df_03` value is not a truthy boolean/integer and whose
`si_01` value is not a list (all collector-produced answers satisfy this),
and on the empty Response Store it produces the complete Derived Result with
all boolean flags false, the "not required" classification and zero gaps. -/
theorem c3_total_on_safe_stores (flat : Store)
    (h1 : df03_safe (pyGetD flat "df_03" (PyVal.list [])))
    (h2 : si01_hashable (pyGetD flat "si_01" (PyVal.str "1–10"))) :
    (calculate flat).isSome = true ∧
    calculate emptyStore =
      some ⟨false, false, "Not Required (verify contract requirements)", false, "10",
            [], 0, [], [], false⟩ := by
  refine ⟨?_, rfl⟩
  have hcui : ∃ c, cui_in_scope flat = some c := by
    unfold cui_in_scope
    cases hv : pyGetD flat "df_03" (PyVal.list []) with
    | none => simp [pyTruthy]
    | bool b =>
        rw [hv] at h1
        simp only [df03_safe] at h1
        subst h1
        simp [pyTruthy]
    | int n =>
        rw [hv] at h1
        simp only [df03_safe] at h1
        subst h1
        simp [pyTruthy]
    | str s =>
        by_cases ht : pyTruthy (PyVal.str s) = true
        · simp [ht, pyOr, pyIn]
        · simp [Bool.not_eq_true] at ht
          simp [ht]
    | list xs =>
        by_cases ht : pyTruthy (PyVal.list xs) = true
        · simp [ht, pyOr, pyIn]
        · simp [Bool.not_eq_true] at ht
          simp [ht]
  obtain ⟨c, hc⟩ := hcui
  have hest : ∃ t, total_map_get (pyGetD flat "si_01" (PyVal.str "1–10")) = some t := by
    cases hv : pyGetD flat "si_01" (PyVal.str "1–10") with
    | list xs => rw [hv] at h2; exact h2.elim
    | none => simp [total_map_get]
    | bool b => simp [total_map_get]
    | int n => simp [total_map_get]
    | str s => simp [total_map_get]
  obtain ⟨t, ht⟩ := hest
  simp [calculate, enclave_recommended, estimate_systems_in_scope, hc, ht]

/-- Claim C4: classification is by strict priority — the primary (CUI) flag
forces Level 2 regardless of the baseline flag, else the baseline (FCI) flag
gives Level 1, else the "not required" sentinel; and `calculate` stores
exactly that level.  With `df_01 = true` and `df_02 = true` the result is
Level 2 with the baseline flag also true. -/
theorem c4_level_priority :
    (∀ fci : Bool, cmmc_level true fci = "Level 2") ∧
    cmmc_level false true = "Level 1" ∧
    cmmc_level false false = "Not Required (verify contract requirements)" ∧
    (∀ (flat : Store) (r : ScoreResult), calculate flat = some r →
      r.cmmc_level_required = cmmc_level r.cui_in_scope r.fci_in_scope) ∧
    (calculate scenarioB).map (fun r => (r.cmmc_level_required, r.fci_in_scope)) =
      some ("Level 2", true) := by
  refine ⟨fun _ => rfl, rfl, rfl, ?_, by rfl⟩
  intro flat r h
  simp only [calculate, Option.bind_eq_bind, Option.bind_eq_some, Option.pure_def,
    Option.some.injEq] at h
  obtain ⟨cui, hcui, enc, henc, sys, hsys, hr⟩ := h
  subst hr
  rfl

/-- Witness for `c4_level_priority` at Scenario B. -/
theorem c4_w :
    (⟨true, true, "Level 2", true, "10", [], 0, [], [], false⟩ : ScoreResult).cmmc_level_required =
      cmmc_level true true :=
  c4_level_priority.2.2.2.1 scenarioB
    ⟨true, true, "Level 2", true, "10", [], 0, [], [], false⟩ (by rfl)

/-- Claim C6: the estimate maps the `si_01` bucket to its numeric ceiling,
then — unless `bd_01` is `true`, which takes precedence and returns the full
bucket value — divides by 5 on a physically/logically separated `bd_02`
answer, by 2 on a partially separated one, and is unreduced otherwise; the
reduced forms carry an "estimated" annotation.  Scenario E evaluates to
`~40 (estimated enclave systems only)`. -/
theorem c6_systems_estimate :
    (∀ (flat : Store) (total : Nat),
      total_map_get (pyGetD flat "si_01" (PyVal.str "1–10")) = some total →
      (pyGet flat "bd_01" = PyVal.bool true →
        estimate_systems_in_scope flat = some (toString total)) ∧
      (pyGet flat "bd_01" ≠ PyVal.bool true →
        (substrB "physically separate" (pyStr (pyGetD flat "bd_02" (PyVal.str ""))) ||
         substrB "logically separated" (pyStr (pyGetD flat "bd_02" (PyVal.str "")))) = true →
        estimate_systems_in_scope flat =
          some ("~" ++ toString (total / 5) ++ " (estimated enclave systems only)")) ∧
      (pyGet flat "bd_01" ≠ PyVal.bool true →
        (substrB "physically separate" (pyStr (pyGetD flat "bd_02" (PyVal.str ""))) ||
         substrB "logically separated" (pyStr (pyGetD flat "bd_02" (PyVal.str "")))) = false →
        substrB "Partially" (pyStr (pyGetD flat "bd_02" (PyVal.str ""))) = true →
        estimate_systems_in_scope flat =
          some ("~" ++ toString (total / 2) ++ " (estimated)")) ∧
      (pyGet flat "bd_01" ≠ PyVal.bool true →
        (substrB "physically separate" (pyStr (pyGetD flat "bd_02" (PyVal.str ""))) ||
         substrB "logically separated" (pyStr (pyGetD flat "bd_02" (PyVal.str "")))) = false →
        substrB "Partially" (pyStr (pyGetD flat "bd_02" (PyVal.str ""))) = false →
        estimate_systems_in_scope flat = some (toString total))) ∧
    estimate_systems_in_scope scenarioE = some "~40 (estimated enclave systems only)" := by
  refine ⟨?_, by rfl⟩
  intro flat total h
  have h10 : 10 ≤ total := total_map_get_ge _ _ h
  have h5 : max 1 (total / 5) = total / 5 := by omega
  have h2' : max 1 (total / 2) = total / 2 := by omega
  refine ⟨?_, ?_, ?_, ?_⟩
  · intro hb
    simp [estimate_systems_in_scope, h, hb]
  · intro hb hsep
    simp [estimate_systems_in_scope, h, hb, hsep, h5]
  · intro hb hsep hpart
    simp [estimate_systems_in_scope, h, hb, hsep, hpart, h2']
  · intro hb hsep hpart
    simp [estimate_systems_in_scope, h, hb, hsep, hpart]

/-- Witness for `c6_systems_estimate` at Scenario E. -/
theorem c6_w :
    estimate_systems_in_scope scenarioE =
      some ("~" ++ toString (200 / 5 : Nat) ++ " (estimated enclave systems only)") :=
  ((c6_systems_estimate.1 scenarioE 200 (by rfl)).2.1 (by decide) (by decide))

/-- Witness for `c3_total_on_safe_stores` at the empty Response Store. -/
theorem c3_w :
    (calculate emptyStore).isSome = true ∧
    calculate emptyStore =
      some ⟨false, false, "Not Required (verify contract requirements)", false, "10",
            [], 0, [], [], false⟩ :=
  c3_total_on_safe_stores emptyStore trivial trivial

/-- Claim C8: the scoring pass is deterministic and mutation-free — it hands
the Response Store back unchanged, and re-running it on that store returns
the bit-identical Derived Result. -/
theorem c8_pure_idempotent (flat : Store) (r : ScoreResult) (s : Store)
    (h : calculateS flat = some (r, s)) :
    s = flat ∧ calculateS s = some (r, s) := by
  unfold calculateS at h ⊢
  cases hc : calculate flat with
  | none => rw [hc] at h; exact absurd h (by simp)
  | some res =>
      rw [hc] at h
      simp only [Option.map_some', Option.some.injEq, Prod.mk.injEq] at h
      obtain ⟨hr, hs⟩ := h
      subst hr
      subst hs
      exact ⟨rfl, by rw [hc]; rfl⟩

/-- Witness for `c8_pure_idempotent` at the empty Response Store. -/
theorem c8_w :
    emptyStore = emptyStore ∧
    calculateS emptyStore =
      some (⟨false, false, "Not Required (verify contract requirements)", false, "10",
             [], 0, [], [], false⟩, emptyStore) :=
  c8_pure_idempotent emptyStore
    ⟨false, false, "Not Required (verify contract requirements)", false, "10",
     [], 0, [], [], false⟩ emptyStore (by rfl)

/-- Claim C9: the aggregated control identifiers are exactly the trimmed
`/`-tokens of the triggered gap records, each appearing once, in
lexicographically sorted order. -/
theorem c9_control_aggregation (gaps : List Gap) :
    List.Sorted (fun a b : String => a ≤ b) (nist_control_gaps gaps) ∧
    (nist_control_gaps gaps).Nodup ∧
    ∀ s : String, s ∈ nist_control_gaps gaps ↔ ∃ g ∈ gaps, s ∈ control_tokens g := by
  refine ⟨List.sorted_insertionSort _ _, ?_, ?_⟩
  · exact ((List.perm_insertionSort _ _).nodup_iff).mpr (List.nodup_dedup _)
  · intro s
    rw [nist_control_gaps, (List.perm_insertionSort _ _).mem_iff, List.mem_dedup,
      List.mem_flatMap]

/-! ## Dependency resolver lemmas (claim C5) -/

theorem lookupAns_append (l₁ l₂ : AnswerStore) (k : String) :
    lookupAns (l₁ ++ l₂) k = (lookupAns l₁ k).or (lookupAns l₂ k) := by
  unfold lookupAns
  rw [List.find?_append]
  cases List.find? (fun p => p.1 == k) l₁ <;> simp

theorem lookupAns_single_ne (k id : String) (v : PyVal) (h : k ≠ id) :
    lookupAns [(id, v)] k = Option.none := by
  have : (id == k) = false := by simp [Ne.symm h]
  simp [lookupAns, List.find?, this]

/-- Processing questions none of which carries the id `k` leaves the entry
for `k` unchanged. -/
theorem engine_frame (oracle : Question → PyVal) (k : String) :
    ∀ (qs : List Question), k ∉ qs.map Question.id →
      ∀ s : EngineState,
        lookupAns (engineRunFrom oracle s qs).answers k = lookupAns s.answers k := by
  intro qs
  induction qs with
  | nil => intro _ s; rfl
  | cons q rest ih =>
      intro hk s
      simp only [List.map_cons, List.mem_cons, not_or] at hk
      obtain ⟨hk1, hk2⟩ := hk
      show lookupAns (engineRunFrom oracle (engineStep oracle s q) rest).answers k = _
      rw [ih hk2]
      unfold engineStep
      cases hq : q.depends_on with
      | none => simp [lookupAns_append, lookupAns_single_ne k q.id _ hk1]
      | some p =>
          obtain ⟨d, e⟩ := p
          by_cases hdep : depOk s.answers d e = true
          · simp [hdep, lookupAns_append, lookupAns_single_ne k q.id _ hk1]
          · simp [hdep]

theorem engineRunFrom_append (oracle : Question → PyVal) (s : EngineState)
    (l₁ l₂ : List Question) :
    engineRunFrom oracle s (l₁ ++ l₂) = engineRunFrom oracle (engineRunFrom oracle s l₁) l₂ :=
  List.foldl_append _ _ _ _

/-- Claim C5: in any catalog with globally unique ids and well-typed expected
values, a question whose dependency is not satisfied is skipped entirely — the
run state (store and displayed-question counter) is unchanged and its id never
receives an entry — while satisfaction itself holds iff the dependency
question already has a stored entry matching the expected value under the
defined equivalence; a satisfied dependency appends the collected answer and
increments the displayed number. -/
theorem c5_dependency_gating (oracle : Question → PyVal) (pre post : List Question)
    (q : Question) (d : String) (e : PyVal)
    (hdep : q.depends_on = some (d, e)) (he : e ≠ PyVal.none)
    (hnodup : ((pre ++ q :: post).map Question.id).Nodup) :
    (depOk (engineRun oracle pre).answers d e = true ↔
      ∃ v, lookupAns (engineRun oracle pre).answers d = some v ∧ expMatches e v = true) ∧
    (depOk (engineRun oracle pre).answers d e = false →
      engineRun oracle (pre ++ [q]) = engineRun oracle pre ∧
      lookupAns (engineRun oracle (pre ++ q :: post)).answers q.id = Option.none) ∧
    (depOk (engineRun oracle pre).answers d e = true →
      engineRun oracle (pre ++ [q]) =
        ⟨(engineRun oracle pre).answers ++ [(q.id, oracle q)],
         (engineRun oracle pre).shown + 1⟩) := by
  have hids : q.id ∉ pre.map Question.id ∧ q.id ∉ post.map Question.id := by
    rw [List.map_append, List.map_cons] at hnodup
    have h' := (List.nodup_cons.mp (List.nodup_middle.mp hnodup)).1
    exact ⟨fun hm => h' (List.mem_append_left _ hm),
           fun hm => h' (List.mem_append_right _ hm)⟩
  refine ⟨?_, ?_, ?_⟩
  · cases hl : lookupAns (engineRun oracle pre).answers d with
    | none =>
        rcases e with _ | b | n | s | xs
        · exact absurd rfl he
        · simp [depOk, dictGetNone, hl, to_bool, expMatches]
        · simp [depOk, dictGetNone, hl, to_bool, expMatches]
        · simp [depOk, dictGetNone, hl, to_bool, expMatches]
        · simp [depOk, dictGetNone, hl, to_bool, expMatches]
    | some v =>
        rcases e with _ | b | n | s | xs
        · exact absurd rfl he
        · cases htb : to_bool v <;>
            simp [depOk, dictGetNone, hl, htb, expMatches]
        · simp [depOk, dictGetNone, hl, expMatches]
        · simp [depOk, dictGetNone, hl, expMatches]
        · simp [depOk, dictGetNone, hl, expMatches]
  · intro hnd
    have hstep : engineStep oracle (engineRun oracle pre) q = engineRun oracle pre := by
      unfold engineStep
      rw [hdep]
      simp [hnd]
    constructor
    · show engineRunFrom oracle ⟨[], 0⟩ (pre ++ [q]) = _
      rw [engineRunFrom_append]
      show engineStep oracle (engineRun oracle pre) q = _
      exact hstep
    · show lookupAns (engineRunFrom oracle ⟨[], 0⟩ (pre ++ q :: post)).answers q.id = _
      rw [show pre ++ q :: post = (pre ++ [q]) ++ post by simp]
      rw [engineRunFrom_append, engineRunFrom_append]
      rw [engine_frame oracle q.id post hids.2]
      show lookupAns (engineStep oracle (engineRun oracle pre) q).answers q.id = _
      rw [hstep]
      show lookupAns (engineRunFrom oracle ⟨[], 0⟩ pre).answers q.id = _
      rw [engine_frame oracle q.id pre hids.1]
      rfl
  · intro hok
    show engineRunFrom oracle ⟨[], 0⟩ (pre ++ [q]) = _
    rw [engineRunFrom_append]
    show engineStep oracle (engineRun oracle pre) q = _
    unfold engineStep
    rw [hdep]
    simp [hok]

/-- Witness for `c5_dependency_gating`: `w1` answered `False`, so `w2`
(expecting `True`) is skipped — state unchanged, no entry. -/
theorem c5_w :
    engineRun oc5 ([qW1] ++ [qW2]) = engineRun oc5 [qW1] ∧
    lookupAns (engineRun oc5 ([qW1] ++ qW2 :: [])).answers qW2.id = Option.none :=
  (c5_dependency_gating oc5 [qW1] [] qW2 "w1" (PyVal.bool true) rfl
    (by decide) (by decide)).2.1 (by decide)

/-! ## Gap monotonicity lemmas (claim C7) -/

theorem pyGetD_update_ne (flat : Store) (id : String) (v : PyVal) (k : String) (d : PyVal)
    (hk : k ≠ id) : pyGetD (updateStore flat id v) k d = pyGetD flat k d := by
  simp [pyGetD, updateStore, hk]

theorem pyGetD_fresh (flat : Store) (id : String) (d : PyVal)
    (hfresh : flat id = Option.none) : pyGetD flat id d = d := by
  simp [pyGetD, hfresh]

/-- A rule reading a single key is preserved by adding an answer under a
fresh id, provided the rule does not trigger on the key's default value. -/
theorem single_rule_mono (rule : PyVal → List Gap) (k : String) (d : PyVal)
    (hdef : rule d = []) (flat : Store) (id : String) (v : PyVal)
    (hfresh : flat id = Option.none) (g : Gap)
    (hg : g ∈ rule (pyGetD flat k d)) : g ∈ rule (pyGetD (updateStore flat id v) k d) := by
  by_cases hk : k = id
  · subst hk
    rw [pyGetD_fresh flat k d hfresh, hdef] at hg
    exact absurd hg (List.not_mem_nil g)
  · rwa [pyGetD_update_ne flat id v k d hk]

theorem shared_rule_mono (flat : Store) (id : String) (v : PyVal)
    (hfresh : flat id = Option.none) (g : Gap)
    (hg : g ∈ shared_rule (pyGet flat "bd_06") (pyGetD flat "bd_06a" (PyVal.list []))) :
    g ∈ shared_rule (pyGet (updateStore flat id v) "bd_06")
        (pyGetD (updateStore flat id v) "bd_06a" (PyVal.list [])) := by
  by_cases h1 : "bd_06" = id
  · subst h1
    rw [show pyGet flat "bd_06" = PyVal.none from by simp [pyGet, hfresh]] at hg
    simp [shared_rule] at hg
  · by_cases h2 : "bd_06a" = id
    · subst h2
      rw [pyGetD_fresh flat "bd_06a" (PyVal.list []) hfresh] at hg
      simp [shared_rule, pyTruthy] at hg
    · rw [show pyGet (updateStore flat id v) "bd_06" = pyGet flat "bd_06" from by
          simp [pyGet, updateStore, h1],
        pyGetD_update_ne flat id v "bd_06a" (PyVal.list []) (fun h => h2 h)]
      exact hg

theorem append_subset_mono {α : Type} {l₁ l₂ l₃ l₄ : List α}
    (h₁ : l₁ ⊆ l₃) (h₂ : l₂ ⊆ l₄) : l₁ ++ l₂ ⊆ l₃ ++ l₄ := by
  intro x hx
  rcases List.mem_append.mp hx with h | h
  · exact List.mem_append_left _ (h₁ h)
  · exact List.mem_append_right _ (h₂ h)

/-- Claim C7: adding an answer under a fresh question id never removes a
previously triggered gap record — every record produced by scoring the
original Response Store is produced by scoring the extended one (the rules
are independent, and no rule triggers while one of its read keys is still at
its missing-answer default). -/
theorem c7_gap_monotone (flat : Store) (id : String) (v : PyVal)
    (hfresh : flat id = Option.none) (g : Gap) (hg : g ∈ identify_gaps flat) :
    g ∈ identify_gaps (updateStore flat id v) := by
  have m1 := fun g hg => single_rule_mono mfa_rule "ac_02" (PyVal.str "") rfl flat id v hfresh g hg
  have m2 := fun g hg => single_rule_mono remote_rule "ac_05" (PyVal.str "") rfl flat id v hfresh g hg
  have m3 := fun g hg => single_rule_mono enc_rest_rule "df_06" (PyVal.str "") rfl flat id v hfresh g hg
  have m4 := fun g hg => single_rule_mono enc_transit_rule "df_07" (PyVal.str "") rfl flat id v hfresh g hg
  have m5 := fun g hg => single_rule_mono boundary_rule "bd_02" (PyVal.str "") rfl flat id v hfresh g hg
  have m6 := fun g hg => shared_rule_mono flat id v hfresh g hg
  have m7 := fun g hg => single_rule_mono ssp_rule "bd_07" PyVal.none rfl flat id v hfresh g hg
  have m8 := fun g hg => single_rule_mono sprs_rule "bd_08" PyVal.none rfl flat id v hfresh g hg
  have m9 := fun g hg => single_rule_mono logging_rule "ac_07" (PyVal.str "") rfl flat id v hfresh g hg
  have m10 := fun g hg => single_rule_mono priv_rule "ac_03" PyVal.none rfl flat id v hfresh g hg
  have m11 := fun g hg => single_rule_mono usb_rule "ac_08" (PyVal.str "") rfl flat id v hfresh g hg
  have m12 := fun g hg => single_rule_mono byod_rule "si_04" PyVal.none rfl flat id v hfresh g hg
  have m13 := fun g hg => single_rule_mono training_rule "ac_09" (PyVal.str "") rfl flat id v hfresh g hg
  have m14 := fun g hg => single_rule_mono sub_rule "df_08a" (PyVal.str "") rfl flat id v hfresh g hg
  exact append_subset_mono (append_subset_mono (append_subset_mono (append_subset_mono
    (append_subset_mono (append_subset_mono (append_subset_mono (append_subset_mono
    (append_subset_mono (append_subset_mono (append_subset_mono (append_subset_mono
    (append_subset_mono m1 m2) m3) m4) m5) m6) m7) m8) m9) m10) m11) m12) m13) m14 hg

/-- Witness for `c7_gap_monotone`: the MFA gap of `storeW7` survives adding a
fresh `bd_07 = False` answer (which itself triggers the SSP gap). -/
theorem c7_w :
    (⟨"IA.3.083", "Multi-Factor Authentication Not Fully Implemented",
      "MFA is required for all access to CUI systems under NIST 800-171 Rev 3 IA.3.083. " ++
      "Password-only authentication is not compliant.", "HIGH"⟩ : Gap) ∈
      identify_gaps (updateStore storeW7 "bd_07" (PyVal.bool false)) :=
  c7_gap_monotone storeW7 "bd_07" (PyVal.bool false) rfl _ (by decide)

/-! ## Multi-choice collector lemmas (claim C10) -/

theorem ask_multi_choice_attempt_spec (choices : List String) (h : choices ≠ [])
    (input : String) (l : List String)
    (ha : ask_multi_choice_attempt choices input = some l) :
    l ≠ [] ∧ ∀ x ∈ l, x ∈ choices := by
  simp only [ask_multi_choice_attempt] at ha
  by_cases hall : (pyLower (String.mk (trimChars input.data)) == "all") = true
  · rw [if_pos hall] at ha
    obtain rfl : choices = l := Option.some.inj ha
    exact ⟨h, fun x hx => hx⟩
  · rw [if_neg hall] at ha
    cases hm : (splitChar ',' (String.mk (trimChars input.data)).data).mapM
        (fun tok => pyInt? (String.mk tok)) with
    | none => rw [hm] at ha; exact absurd ha (by simp)
    | some nums =>
        rw [hm] at ha
        dsimp only at ha
        split_ifs at ha with hne
        · obtain rfl := Option.some.inj ha
          refine ⟨hne, ?_⟩
          intro x hx
          obtain ⟨i, _, hf⟩ := List.mem_filterMap.mp hx
          split_ifs at hf
          exact List.get?_mem hf

/-- Claim C10: whenever the multi-choice collector returns a value (for a
question that has choices), that value is a non-empty list of strings drawn
from the choice list, and the `all` input returns the full choice list; an
empty selection is never returned. -/
theorem c10_multi_choice_nonempty (choices : List String) (h : choices ≠ []) :
    (∀ (inputs : List String) (l : List String),
      ask_multi_choice choices inputs = some l → l ≠ [] ∧ ∀ x ∈ l, x ∈ choices) ∧
    ask_multi_choice_attempt choices "all" = some choices := by
  constructor
  · intro inputs
    induction inputs with
    | nil => intro l hl; exact absurd hl (by simp [ask_multi_choice])
    | cons i is ih =>
        intro l hl
        unfold ask_multi_choice at hl
        cases hatt : ask_multi_choice_attempt choices i with
        | some l' =>
            rw [hatt] at hl
            obtain rfl := Option.some.inj hl
            exact ask_multi_choice_attempt_spec choices h i l' hatt
        | none =>
            rw [hatt] at hl
            exact ih l hl
  · rfl

/-- Witness for `c10_multi_choice_nonempty`: input `"2"` against choices
`["A", "B"]` selects `["B"]`, non-empty and drawn from the choices. -/
theorem c10_w :
    (["B"] : List String) ≠ [] ∧ ∀ x ∈ (["B"] : List String), x ∈ (["A", "B"] : List String) :=
  (c10_multi_choice_nonempty ["A", "B"] (by decide)).1 ["2"] ["B"] (by rfl)

end CMMC
